import Mathlib

/-!
Verification of the nRF24L01+ driver core (src/device.rs, src/lib.rs, src/rx.rs)
against its natural-language specification.

The embedding models the transport layer (DeviceImpl) and the mode state machine
(Nrf24l01) as pure Lean functions over explicit state, with the chip's responses
supplied by an oracle (one response per bus transaction) and bus-visible behaviour
recorded as an event trace.  Register bit layouts that live in source files not
present under src (registers.rs, command.rs, payload.rs) are modelled from the
specification and marked as such in their doc comments.  Transport errors are
modelled where a claim is about them (send_command, update_config); the mode
state machine is modelled over an error-free transport, matching the mock-bus
scenarios of the specification.
-/

namespace Nrf24

/-- Operating mode of the driver, lib.rs enum Mode (Standby, Rx, Tx). -/
inductive Mode where
  | Standby
  | Rx
  | Tx
deriving DecidableEq

/-- Result of a poll-style operation, mirroring nb::Result: a value, or the
distinct non-fatal WouldBlock signal. -/
inductive NbRes (α : Type) where
  | ok (a : α)
  | wouldBlock
deriving DecidableEq

/-- Replace bit i of a byte by v, keeping all other bits (bitfield-style setter,
written arithmetically over Nat). -/
def setBit (c i : Nat) (v : Bool) : Nat :=
  (c / 2 ^ (i + 1)) * 2 ^ (i + 1) + (if v then 2 ^ i else 0) + c % 2 ^ i

/-- Read bit i of a byte. -/
def getBit (c i : Nat) : Bool := decide (c / 2 ^ i % 2 = 1)

namespace Config

/-- Modelled from the spec: the CONFIG register's receive-enable bit PRIM_RX is
bit 0 of the byte (registers.rs is not under src). -/
def setPrimRx (c : Nat) (v : Bool) : Nat := setBit c 0 v

/-- Modelled from the spec: CONFIG.PRIM_RX, bit 0. -/
def primRx (c : Nat) : Bool := getBit c 0

/-- Modelled from the spec: CONFIG.PWR_UP, bit 1. -/
def setPwrUp (c : Nat) (v : Bool) : Nat := setBit c 1 v

/-- Modelled from the spec: CONFIG.MASK_RX_DR, bit 6. -/
def setMaskRxDr (c : Nat) (v : Bool) : Nat := setBit c 6 v

/-- Modelled from the spec: CONFIG.MASK_TX_DS, bit 5. -/
def setMaskTxDs (c : Nat) (v : Bool) : Nat := setBit c 5 v

/-- Modelled from the spec: CONFIG.MASK_MAX_RT, bit 4. -/
def setMaskMaxRt (c : Nat) (v : Bool) : Nat := setBit c 4 v

end Config

/-- Status register contents as decoded from the first response byte of every
transaction.  Fields modelled from the spec (registers.rs is not under src):
RX-data-ready, TX-data-sent, max-retransmits-hit, active RX pipe number, TX
FIFO full. -/
structure Status where
  rx_dr : Bool
  tx_ds : Bool
  max_rt : Bool
  rx_p_no : Nat
  tx_full : Bool
deriving DecidableEq

/-- FIFO_STATUS register contents; fields modelled from the spec. -/
structure FifoStatus where
  tx_full : Bool
  tx_empty : Bool
  rx_full : Bool
  rx_empty : Bool
deriving DecidableEq

/- ------------------------------------------------------------------ -/
/- Transport layer: device.rs                                          -/
/- ------------------------------------------------------------------ -/

/-- Pin-level events of one send_command transaction (device.rs lines 77-100). -/
inductive PinEv where
  | csnLow
  | csnHigh
  | exchange (buf : List Nat)
deriving DecidableEq

/-- device.rs DeviceImpl::send_command: encode the command into an on-stack
buffer, assert chip select (csn low), perform one full-duplex exchange,
de-assert chip select (csn high), and only then propagate a transfer error;
on success byte 0 of the overwritten buffer is the Status byte and the rest
decodes per command.  The bus is a function from the transmitted buffer to
either the received buffer or a transport error. -/
def send_command {α : Type} (xfer : List Nat → Except Nat (List Nat))
    (encoded : List Nat) (decode : List Nat → α) :
    List PinEv × Except Nat (Nat × α) :=
  let transferResult := xfer encoded
  let evs := [PinEv.csnLow, PinEv.exchange encoded, PinEv.csnHigh]
  match transferResult with
  | Except.error e => (evs, Except.error e)
  | Except.ok buf2 => (evs, Except.ok (buf2.headD 0, decode buf2))

/-- Transport-level device state for the CONFIG cache claims: the in-memory
cached CONFIG byte, the chip's actual CONFIG register content, and the list of
register write commands issued on the bus (address, data bytes).  CONFIG's bus
address is 0. -/
structure Dev where
  config : Nat
  chip : Nat
  writes : List (Nat × List Nat)
deriving DecidableEq

/-- device.rs DeviceImpl::update_config: snapshot the cache, apply the mutator
to the cached CONFIG in place, and issue a CONFIG write (register address 0)
only when the mutated cache differs from the snapshot.  wOk is the transport
outcome of that write: on a failed transfer the error is propagated but the
cache keeps the mutated value (the source does not roll it back), and the
chip's register is assumed unchanged by the failed transfer. -/
def Dev.update_config {α : Type} (wOk : Bool) (d : Dev) (f : Nat → Nat × α) :
    Dev × Except Unit α :=
  let old := d.config
  let fr := f d.config
  let d1 : Dev := { d with config := fr.1 }
  if fr.1 ≠ old then
    let d2 : Dev := { d1 with writes := d1.writes ++ [(0, [fr.1])] }
    if wOk then ({ d2 with chip := fr.1 }, Except.ok fr.2)
    else (d2, Except.error ())
  else (d1, Except.ok fr.2)

/-- device.rs Device::update_register (default trait method): assert that the
register's address is not 0 (CONFIG must go through update_config; the assert
models the panic as none), read the register, apply the mutator to a copy of
the value read, and write it back only if it differs.  Returns the list of
register reads issued, the list of register writes issued, and the mutator's
result. -/
def Device.update_register {α : Type} (addr : Nat) (readVal : Nat)
    (f : Nat → Nat × α) : Option (List Nat × List (Nat × Nat) × α) :=
  if addr = 0 then none
  else
    let old := readVal
    let fr := f old
    some ([addr], (if fr.1 ≠ old then [(addr, fr.1)] else []), fr.2)

/-- Construction failure, lib.rs enum Error (the Spi variant is not needed in
the error-free construction model). -/
inductive ConstructErr where
  | NotConnected
deriving DecidableEq

/-- Modelled from the spec: the address-width field of the SETUP_AW register
occupies the low three bits of the byte, so the all-ones response of a
disconnected bus decodes to 7 (registers.rs is not under src). -/
def SetupAw.aw (raw : Nat) : Nat := raw % 8

/-- device.rs DeviceImpl::is_connected: read SETUP_AW and validate that the
address-width field is at most 3. -/
def is_connected (raw : Nat) : Bool := decide (SetupAw.aw raw ≤ 3)

/-- device.rs DeviceImpl::new: drive ce low and csn high, initialize the CONFIG
cache to the reset value 0b0000_1000 with the three interrupt-mask bits
cleared, then perform the connectivity check; on failure return NotConnected.
The chip's SETUP_AW response byte is the argument; on success the initial
CONFIG cache is returned. -/
def DeviceImpl.new (raw : Nat) : Except ConstructErr Nat :=
  let config0 :=
    Config.setMaskMaxRt (Config.setMaskTxDs (Config.setMaskRxDr 8 false) false) false
  if is_connected raw then Except.ok config0
  else Except.error ConstructErr.NotConnected

/- ------------------------------------------------------------------ -/
/- Register model (registers.rs is not under src)                      -/
/- ------------------------------------------------------------------ -/

/-- Modelled from the spec: a register value is a bit-accurate view over its
fixed-width raw bytes (1 to 5 bytes depending on register); decoding wraps the
raw response bytes of the right width, encoding returns them (registers.rs is
not under src). -/
structure RegVal (w : Nat) where
  raw : List Nat
  len_eq : raw.length = w
  bytes_lt : ∀ b ∈ raw, b < 256

/-- Modelled from the spec: encode returns the register's raw bytes. -/
def RegVal.encode {w : Nat} (v : RegVal w) : List Nat := v.raw

/-- Modelled from the spec: decode a raw byte buffer of the register's width. -/
def RegVal.decode (w : Nat) (bs : List Nat) : Option (RegVal w) :=
  if h : bs.length = w ∧ ∀ b ∈ bs, b < 256 then some ⟨bs, h.1, h.2⟩ else none

/- ------------------------------------------------------------------ -/
/- Mode state machine: lib.rs                                          -/
/- ------------------------------------------------------------------ -/

/-- Bus commands issued by the mode state machine.  Register addresses:
CONFIG is 0, STATUS is 7, FIFO_STATUS is 23 (modelled from the spec, the
registers source being absent from src). -/
inductive Cmd where
  | readReg (addr : Nat)
  | writeReg (addr : Nat) (data : List Nat)
  | flushTx
  | writeTxPayload (data : List Nat)
  | readRxPayloadWidth
  | readRxPayload (width : Nat)
deriving DecidableEq

/-- lib.rs Nrf24l01::clear: write a Status value with the requested interrupt
bits set to the STATUS register (write-to-clear).  Byte layout modelled from
the spec: RX_DR bit 6, TX_DS bit 5, MAX_RT bit 4. -/
def clearCmd (rx_dr tx_ds max_rt : Bool) : Cmd :=
  Cmd.writeReg 7
    [(if rx_dr then 64 else 0) + (if tx_ds then 32 else 0) + (if max_rt then 16 else 0)]

/-- Bus-visible events of the mode state machine.  CE pin toggles carry the
recorded mode (the value of self.mode) at the instant the pin is driven;
modeSet records an assignment to self.mode. -/
inductive Ev where
  | ceHigh (m : Mode)
  | ceLow (m : Mode)
  | cmd (c : Cmd)
  | modeSet (m : Mode)
deriving DecidableEq

/-- Chip response to one bus transaction: the Status byte contents, the
FIFO_STATUS contents (used when that register is what was read), the payload
width byte (used by R_RX_PL_WID) and the payload byte stream. -/
structure Resp where
  status : Status
  fifo : FifoStatus
  width : Nat
  payload : Nat → Nat

/-- Chip oracle: the response to the k-th bus transaction. -/
abbrev Chip := Nat → Resp

/-- Mode state machine state: recorded mode, cached CONFIG byte, CE pin level,
and the index of the next bus transaction. -/
structure St where
  mode : Mode
  config : Nat
  ce : Bool
  k : Nat
deriving DecidableEq

/-- Mode-machine view of DeviceImpl::update_config with a pure mutator:
mutate the cached CONFIG byte and issue a CONFIG write command only on
change (consuming one bus transaction when it writes). -/
def updateConfigM (s : St) (f : Nat → Nat) : List Ev × St :=
  let old := s.config
  let c := f old
  if c = old then ([], { s with config := c })
  else ([Ev.cmd (Cmd.writeReg 0 [c])], { s with config := c, k := s.k + 1 })

/-- lib.rs Nrf24l01::tx: no-op when already Tx; otherwise de-assert CE, clear
CONFIG's PRIM_RX via the cached update, then record mode = Tx. -/
def txOp (s : St) : List Ev × St :=
  if s.mode = Mode.Tx then ([], s)
  else
    let s1 : St := { s with ce := false }
    let p2 := updateConfigM s1 (fun c => Config.setPrimRx c false)
    (Ev.ceLow s.mode :: p2.1 ++ [Ev.modeSet Mode.Tx], { p2.2 with mode := Mode.Tx })

/-- lib.rs Nrf24l01::wait_tx_ready: ensure Tx, read FIFO_STATUS (together with
Status), on max_rt flush the TX FIFO and clear the TX_DS and MAX_RT interrupt
flags, then report WouldBlock exactly when the FIFO_STATUS TX-full flag that
was read is set. -/
def waitTxReadyOp (chip : Chip) (s : St) : List Ev × NbRes Unit × St :=
  let p1 := txOp s
  let s1 := p1.2
  let st := (chip s1.k).status
  let fs := (chip s1.k).fifo
  let s2 : St := { s1 with k := s1.k + 1 }
  let p3 : List Ev × St :=
    if st.max_rt then
      ([Ev.cmd Cmd.flushTx, Ev.cmd (clearCmd false true true)], { s2 with k := s2.k + 2 })
    else ([], s2)
  (p1.1 ++ Ev.cmd (Cmd.readReg 23) :: p3.1,
    if fs.tx_full then NbRes.wouldBlock else NbRes.ok (), p3.2)

/-- lib.rs Nrf24l01::wait_tx_empty: like wait_tx_ready but keyed on the
TX-empty flag, additionally de-asserting CE once the TX FIFO is empty. -/
def waitTxEmptyOp (chip : Chip) (s : St) : List Ev × NbRes Unit × St :=
  let p1 := txOp s
  let s1 := p1.2
  let st := (chip s1.k).status
  let fs := (chip s1.k).fifo
  let s2 : St := { s1 with k := s1.k + 1 }
  let p3 : List Ev × St :=
    if st.max_rt then
      ([Ev.cmd Cmd.flushTx, Ev.cmd (clearCmd false true true)], { s2 with k := s2.k + 2 })
    else ([], s2)
  let s3 := p3.2
  if fs.tx_empty then
    (p1.1 ++ Ev.cmd (Cmd.readReg 23) :: p3.1 ++ [Ev.ceLow s3.mode], NbRes.ok (),
      { s3 with ce := false })
  else
    (p1.1 ++ Ev.cmd (Cmd.readReg 23) :: p3.1, NbRes.wouldBlock, s3)

/-- lib.rs Nrf24l01::rx: no-op when already Rx; otherwise wait for the TX FIFO
to drain (propagating WouldBlock), assert CE, set CONFIG's PRIM_RX via the
cached update, then record mode = Rx. -/
def rxOp (chip : Chip) (s : St) : List Ev × NbRes Unit × St :=
  if s.mode = Mode.Rx then ([], NbRes.ok (), s)
  else
    let p1 := waitTxEmptyOp chip s
    match p1.2.1 with
    | NbRes.wouldBlock => (p1.1, NbRes.wouldBlock, p1.2.2)
    | NbRes.ok _ =>
      let s1 := p1.2.2
      let s2 : St := { s1 with ce := true }
      let p3 := updateConfigM s2 (fun c => Config.setPrimRx c true)
      (p1.1 ++ Ev.ceHigh s1.mode :: p3.1 ++ [Ev.modeSet Mode.Rx], NbRes.ok (),
        { p3.2 with mode := Mode.Rx })

/-- lib.rs Nrf24l01::send: ensure Tx, wait for TX-ready (propagating
WouldBlock), write the TX payload, then assert CE to trigger transmission. -/
def sendOp (chip : Chip) (pl : List Nat) (s : St) : List Ev × NbRes Unit × St :=
  let p1 := txOp s
  let p2 := waitTxReadyOp chip p1.2
  match p2.2.1 with
  | NbRes.wouldBlock => (p1.1 ++ p2.1, NbRes.wouldBlock, p2.2.2)
  | NbRes.ok _ =>
    let s2 := p2.2.2
    (p1.1 ++ p2.1 ++ [Ev.cmd (Cmd.writeTxPayload pl), Ev.ceHigh s2.mode], NbRes.ok (),
      { s2 with k := s2.k + 1, ce := true })

/-- lib.rs Nrf24l01::read: ensure Rx (propagating WouldBlock), issue the
read-payload-width command, then the read-payload command for that width; the
returned payload is the wire bytes of that width (payload.rs is not under src;
the payload is modelled from the spec as the width-many received bytes). -/
def readOp (chip : Chip) (s : St) : List Ev × NbRes (List Nat) × St :=
  let p1 := rxOp chip s
  match p1.2.1 with
  | NbRes.wouldBlock => (p1.1, NbRes.wouldBlock, p1.2.2)
  | NbRes.ok _ =>
    let s1 := p1.2.2
    let w := (chip s1.k).width
    let s2 : St := { s1 with k := s1.k + 1 }
    let pl := (List.range w).map (chip s2.k).payload
    (p1.1 ++ [Ev.cmd Cmd.readRxPayloadWidth, Ev.cmd (Cmd.readRxPayload w)],
      NbRes.ok pl, { s2 with k := s2.k + 1 })

/-- lib.rs Nrf24l01::wait_rx_ready: ensure Rx (propagating WouldBlock), read
FIFO_STATUS; WouldBlock when the RX FIFO is empty, otherwise the pipe number
from Status. -/
def waitRxReadyOp (chip : Chip) (s : St) : List Ev × NbRes Nat × St :=
  let p1 := rxOp chip s
  match p1.2.1 with
  | NbRes.wouldBlock => (p1.1, NbRes.wouldBlock, p1.2.2)
  | NbRes.ok _ =>
    let s1 := p1.2.2
    let st := (chip s1.k).status
    let fs := (chip s1.k).fifo
    let s2 : St := { s1 with k := s1.k + 1 }
    (p1.1 ++ [Ev.cmd (Cmd.readReg 23)],
      if fs.rx_empty then NbRes.wouldBlock else NbRes.ok st.rx_p_no, s2)

/-- Top-level operations of the mode state machine available to callers of the
claimed interleavings. -/
inductive Op where
  | enterTx
  | enterRx
  | send (pl : List Nat)
  | readPayload
  | waitTxReady
  | waitTxEmpty
  | waitRxReady

/-- Run one top-level operation, keeping its event trace. -/
def runOp (chip : Chip) (s : St) : Op → List Ev × St
  | Op.enterTx => txOp s
  | Op.enterRx =>
    let p := rxOp chip s
    (p.1, p.2.2)
  | Op.send pl =>
    let p := sendOp chip pl s
    (p.1, p.2.2)
  | Op.readPayload =>
    let p := readOp chip s
    (p.1, p.2.2)
  | Op.waitTxReady =>
    let p := waitTxReadyOp chip s
    (p.1, p.2.2)
  | Op.waitTxEmpty =>
    let p := waitTxEmptyOp chip s
    (p.1, p.2.2)
  | Op.waitRxReady =>
    let p := waitRxReadyOp chip s
    (p.1, p.2.2)

/-- Run a sequence of top-level operations, concatenating the event traces. -/
def runOps (chip : Chip) : St → List Op → List Ev × St
  | s, [] => ([], s)
  | s, o :: os =>
    let p := runOp chip s o
    let q := runOps chip p.2 os
    (p.1 ++ q.1, q.2)

/-- State of a freshly constructed Nrf24l01: mode Standby, CE low, CONFIG
cache 0b0000_1010 (reset value 8 with PWR_UP set by new), no transactions. -/
def initSt : St := { mode := Mode.Standby, config := 10, ce := false, k := 0 }

/-- Is an event a bus command. -/
def isCmdEv : Ev → Bool
  | Ev.cmd _ => true
  | _ => false

/- ------------------------------------------------------------------ -/
/- CE discipline automaton (for the mode invariant claim)              -/
/- ------------------------------------------------------------------ -/

/-- State of the CE discipline scanner: an owed mode assignment (after a CE
toggle inside a transition, the transition must record that mode before any
further CE toggle or mode assignment), and whether the previous event was the
write-TX-payload command (which licenses send's CE pulse in Tx). -/
structure ChkSt where
  pending : Option Mode
  prevWriteTx : Bool
deriving DecidableEq

/-- One step of the CE discipline scanner.  A CE de-assert while the recorded
mode is Rx must be followed by recording mode Tx before any further CE toggle
or mode assignment; a CE assert while the recorded mode is Tx must either be
immediately preceded by the write-TX-payload command (send's transmission
pulse) or be followed by recording mode Rx likewise.  none is a violation. -/
def chkStep : ChkSt → Ev → Option ChkSt
  | st, Ev.ceLow m =>
    match st.pending with
    | some _ => none
    | none =>
      if m = Mode.Rx then some ⟨some Mode.Tx, false⟩ else some ⟨none, false⟩
  | st, Ev.ceHigh m =>
    match st.pending with
    | some _ => none
    | none =>
      if m = Mode.Tx then
        if st.prevWriteTx then some ⟨none, false⟩ else some ⟨some Mode.Rx, false⟩
      else some ⟨none, false⟩
  | st, Ev.modeSet m =>
    match st.pending with
    | some m2 => if m = m2 then some ⟨none, false⟩ else none
    | none => some ⟨none, false⟩
  | st, Ev.cmd c =>
    some ⟨st.pending,
      match c with
      | Cmd.writeTxPayload _ => true
      | _ => false⟩

/-- Run the CE discipline scanner over a trace. -/
def chkRun : ChkSt → List Ev → Option ChkSt
  | st, [] => some st
  | st, e :: es =>
    match chkStep st e with
    | none => none
    | some st2 => chkRun st2 es

/-- A trace obeys the CE discipline when the scanner accepts it with no owed
mode assignment left. -/
def ceOk (evs : List Ev) : Bool :=
  match chkRun ⟨none, false⟩ evs with
  | some st => st.pending.isNone
  | none => false

/- ------------------------------------------------------------------ -/
/- Concrete oracles and states for counterexamples and witnesses       -/
/- ------------------------------------------------------------------ -/

/-- Oracle of an idle chip: no interrupts pending, TX FIFO empty, RX FIFO
holding a packet, zero payload width. -/
def chipBasic : Chip := fun _ =>
  { status := ⟨false, false, false, 0, false⟩
    fifo := ⟨false, true, false, false⟩
    width := 0
    payload := fun _ => 0 }

/-- Oracle of a chip whose Status reports max_rt while the TX FIFO is not
full (and not empty). -/
def chipMaxRt : Chip := fun _ =>
  { status := ⟨false, false, true, 0, false⟩
    fifo := ⟨false, false, false, false⟩
    width := 0
    payload := fun _ => 0 }

/-- Oracle of an idle chip in Rx with a 5-byte packet pending. -/
def chipRx5 : Chip := fun _ =>
  { status := ⟨true, false, false, 2, false⟩
    fifo := ⟨false, true, false, false⟩
    width := 5
    payload := fun i => i + 1 }

/-- A state already in Tx mode. -/
def stTx : St := { mode := Mode.Tx, config := 10, ce := false, k := 0 }

/-- A state already in Rx mode. -/
def stRx : St := { mode := Mode.Rx, config := 11, ce := true, k := 0 }

/- ------------------------------------------------------------------ -/
/- Theorems                                                            -/
/- ------------------------------------------------------------------ -/

/-- C1: for every mutator f, update_config applies f to the in-memory cached
CONFIG value and issues a CONFIG write command if and only if the mutated
value differs from the pre-mutation snapshot: a no-change mutation appends no
bus write and a changing mutation appends exactly one (whatever the transport
outcome of that write). -/
theorem update_config_write_iff {α : Type} (wOk : Bool) (d : Dev)
    (f : Nat → Nat × α) :
    (Dev.update_config wOk d f).1.config = (f d.config).1
    ∧ (Dev.update_config wOk d f).1.writes =
        d.writes ++ (if (f d.config).1 ≠ d.config then [(0, [(f d.config).1])] else []) := by
  unfold Dev.update_config
  by_cases h : (f d.config).1 = d.config
  · simp [h]
  · simp [h]
    by_cases hw : wOk <;> simp [hw]

/-- C2: send_command asserts chip select before the exchange and de-asserts it
exactly once afterwards, for every outcome of the bus exchange; when the
exchange fails, the error is returned only after the de-assert and no decoded
response is produced. -/
theorem send_command_csn_discipline {α : Type}
    (xfer : List Nat → Except Nat (List Nat)) (enc : List Nat)
    (dec : List Nat → α) :
    (send_command xfer enc dec).1 = [PinEv.csnLow, PinEv.exchange enc, PinEv.csnHigh]
    ∧ ((send_command xfer enc dec).1.filter (fun e => e = PinEv.csnHigh)).length = 1
    ∧ (∀ e, xfer enc = Except.error e →
        (send_command xfer enc dec).2 = Except.error e) := by
  unfold send_command
  cases h : xfer enc <;> simp [h, List.filter]

/-- Witness for C2 at a concrete failing bus: the trace still frames the
exchange with one csn de-assert and the error is propagated undecoded. -/
theorem send_command_csn_discipline_witness :
    (send_command (fun _ => Except.error 5) [255, 0] (fun _ => 0)).1 =
      [PinEv.csnLow, PinEv.exchange [255, 0], PinEv.csnHigh]
    ∧ (send_command (fun _ => Except.error 5) [255, 0] (fun _ => 0)).2 =
        Except.error 5 := by
  have h := send_command_csn_discipline (fun _ => Except.error 5) [255, 0]
    (fun _ => (0 : Nat))
  exact ⟨h.1, h.2.2 5 rfl⟩

/-- C10: when the CONFIG write issued inside update_config fails, the error is
propagated but the in-memory cache keeps the mutated value, so the cache and
the chip's CONFIG register diverge. -/
theorem update_config_failed_write_cache {α : Type} (d : Dev) (f : Nat → Nat × α)
    (hne : (f d.config).1 ≠ d.config) (hsync : d.chip = d.config) :
    (Dev.update_config false d f).2 = Except.error ()
    ∧ (Dev.update_config false d f).1.config = (f d.config).1
    ∧ (Dev.update_config false d f).1.config ≠ (Dev.update_config false d f).1.chip := by
  unfold Dev.update_config
  simp [hne, hsync]

/-- Witness for C10: a changing mutation on an in-sync device with a failing
bus leaves the mutated value cached and the chip register stale. -/
theorem update_config_failed_write_cache_witness :
    (Dev.update_config false ⟨10, 10, []⟩ (fun c => (c + 1, ()))).2 = Except.error ()
    ∧ (Dev.update_config false ⟨10, 10, []⟩ (fun c => (c + 1, ()))).1.config = 11
    ∧ (Dev.update_config false ⟨10, 10, []⟩ (fun c => (c + 1, ()))).1.config ≠
        (Dev.update_config false ⟨10, 10, []⟩ (fun c => (c + 1, ()))).1.chip := by
  have h := update_config_failed_write_cache ⟨10, 10, []⟩ (fun c => (c + 1, ()))
    (by decide) (by decide)
  exact ⟨h.1, h.2.1, h.2.2⟩

/-- C9: for a register whose bus address is nonzero, update_register's
assertion passes, the operation issues one read of that register, applies the
mutator once to the value read, and issues a write-back exactly when the
mutated value differs from the value read. -/
theorem update_register_spec {α : Type} (addr v : Nat) (f : Nat → Nat × α)
    (h : addr ≠ 0) :
    Device.update_register addr v f =
      some ([addr], (if (f v).1 ≠ v then [(addr, (f v).1)] else []), (f v).2) := by
  unfold Device.update_register
  simp [h]

/-- Witness for C9 at register address 1: the assertion passes, one read and
one (changing) write are issued, and the mutator's result is returned. -/
theorem update_register_spec_witness :
    Device.update_register 1 0 (fun c => (c + 1, c)) = some ([1], [(1, 1)], 0) := by
  have h := update_register_spec 1 0 (fun c => (c + 1, c)) (by decide)
  simpa using h

/-- C6: construction succeeds when the SETUP_AW address-width field decodes to
at most 3 and fails with NotConnected when it decodes to 7 (as from an
all-ones response of a disconnected bus). -/
theorem construction_setup_aw_check (raw : Nat) :
    (SetupAw.aw raw ≤ 3 → DeviceImpl.new raw = Except.ok 8)
    ∧ (SetupAw.aw raw = 7 → DeviceImpl.new raw = Except.error ConstructErr.NotConnected) := by
  constructor
  · intro h
    unfold DeviceImpl.new is_connected
    simp [h]
    decide
  · intro h
    unfold DeviceImpl.new is_connected
    simp [h]

/-- Witness for C6: SETUP_AW field 1 constructs (with the documented initial
CONFIG cache), field 7 from an all-ones byte reports NotConnected. -/
theorem construction_setup_aw_check_witness :
    DeviceImpl.new 1 = Except.ok 8
    ∧ DeviceImpl.new 255 = Except.error ConstructErr.NotConnected := by
  exact ⟨(construction_setup_aw_check 1).1 (by decide),
    (construction_setup_aw_check 255).2 (by decide)⟩

/-- C8: for every register width and value, decoding the encoded bytes yields
the original value, and encoding a decoded well-formed byte buffer reproduces
the buffer. -/
theorem register_roundtrip :
    (∀ (w : Nat) (v : RegVal w), RegVal.decode w (RegVal.encode v) = some v)
    ∧ (∀ (w : Nat) (bs : List Nat), bs.length = w → (∀ b ∈ bs, b < 256) →
        Option.map RegVal.encode (RegVal.decode w bs) = some bs) := by
  constructor
  · intro w v
    cases v with
    | mk raw len_eq bytes_lt =>
      unfold RegVal.decode RegVal.encode
      rw [dif_pos ⟨len_eq, bytes_lt⟩]
  · intro w bs h1 h2
    unfold RegVal.decode RegVal.encode
    rw [dif_pos ⟨h1, h2⟩]
    rfl

/-- Witness for C8 on a concrete one-byte register value. -/
theorem register_roundtrip_witness :
    RegVal.decode 1 (RegVal.encode (⟨[7], rfl, by decide⟩ : RegVal 1)) =
      some (⟨[7], rfl, by decide⟩ : RegVal 1)
    ∧ Option.map RegVal.encode (RegVal.decode 1 [7]) = some [7] := by
  exact ⟨register_roundtrip.1 1 ⟨[7], rfl, by decide⟩,
    register_roundtrip.2 1 [7] rfl (by decide)⟩

/-- Setting and reading back a CONFIG bit: PRIM_RX round-trips through its
setter. -/
theorem primRx_setPrimRx (c : Nat) (v : Bool) :
    Config.primRx (Config.setPrimRx c v) = v := by
  unfold Config.primRx Config.setPrimRx setBit getBit
  cases v <;> simp <;> omega

/-- The state returned by updateConfigM carries the mutated CONFIG value. -/
theorem updateConfigM_config (s : St) (f : Nat → Nat) :
    (updateConfigM s f).2.config = f s.config := by
  unfold updateConfigM
  dsimp only
  split <;> rfl

/-- updateConfigM does not touch the CE line. -/
theorem updateConfigM_ce (s : St) (f : Nat → Nat) :
    (updateConfigM s f).2.ce = s.ce := by
  unfold updateConfigM
  dsimp only
  split <;> rfl

/-- updateConfigM does not touch the recorded mode. -/
theorem updateConfigM_mode (s : St) (f : Nat → Nat) :
    (updateConfigM s f).2.mode = s.mode := by
  unfold updateConfigM
  dsimp only
  split <;> rfl

/-- After the Tx transition the recorded mode is Tx. -/
theorem txOp_mode (s : St) : (txOp s).2.mode = Mode.Tx := by
  unfold txOp
  by_cases h : s.mode = Mode.Tx <;> simp [h]

/-- After the Tx transition the CE line is low. -/
theorem txOp_ce (s : St) : s.mode ≠ Mode.Tx → (txOp s).2.ce = false := by
  intro h
  unfold txOp
  rw [if_neg h]
  show (updateConfigM { s with ce := false } _).2.ce = false
  rw [updateConfigM_ce]

/-- After the Tx transition the cached CONFIG has PRIM_RX cleared. -/
theorem txOp_primRx (s : St) :
    s.mode ≠ Mode.Tx → Config.primRx (txOp s).2.config = false := by
  intro h
  unfold txOp
  rw [if_neg h]
  show Config.primRx (updateConfigM { s with ce := false } _).2.config = false
  rw [updateConfigM_config, primRx_setPrimRx]

/-- wait_tx_empty leaves the recorded mode where the Tx transition put it. -/
theorem waitTxEmptyOp_mode (chip : Chip) (s : St) :
    (waitTxEmptyOp chip s).2.2.mode = Mode.Tx := by
  unfold waitTxEmptyOp
  have h := txOp_mode s
  dsimp only
  split
  · split <;> simpa using h
  · split <;> simpa using h

/-- C3 counterexample: with Status.max_rt set but the TX FIFO not full,
wait_tx_ready issues the FlushTx command yet returns Ok, not WouldBlock,
refuting the claim that a set max-retransmit flag always yields the
WouldBlock signal. -/
theorem wait_tx_ready_max_rt_cex :
    (chipMaxRt (txOp stTx).2.k).status.max_rt = true
    ∧ Ev.cmd Cmd.flushTx ∈ (waitTxReadyOp chipMaxRt stTx).1
    ∧ Ev.cmd (clearCmd false true true) ∈ (waitTxReadyOp chipMaxRt stTx).1
    ∧ (waitTxReadyOp chipMaxRt stTx).2.1 = NbRes.ok () := by
  decide

/-- C3 amended: if wait_tx_ready reads a Status with max_rt set, it issues a
FlushTx command and clears the TX-data-sent and max-retransmit interrupt
flags, and then returns WouldBlock exactly when the FIFO-status TX-full flag
read in the same transaction is set (Ok otherwise). -/
theorem wait_tx_ready_max_rt (chip : Chip) (s : St)
    (h : (chip (txOp s).2.k).status.max_rt = true) :
    (waitTxReadyOp chip s).1 =
      (txOp s).1 ++ [Ev.cmd (Cmd.readReg 23), Ev.cmd Cmd.flushTx,
        Ev.cmd (clearCmd false true true)]
    ∧ (waitTxReadyOp chip s).2.1 =
      (if (chip (txOp s).2.k).fifo.tx_full then NbRes.wouldBlock else NbRes.ok ()) := by
  unfold waitTxReadyOp
  simp [h]

/-- Witness for the amended C3 at a concrete chip and Tx-mode state. -/
theorem wait_tx_ready_max_rt_witness :
    (waitTxReadyOp chipMaxRt stTx).1 =
      [Ev.cmd (Cmd.readReg 23), Ev.cmd Cmd.flushTx, Ev.cmd (clearCmd false true true)]
    ∧ (waitTxReadyOp chipMaxRt stTx).2.1 = NbRes.ok () := by
  have h := wait_tx_ready_max_rt chipMaxRt stTx (by decide)
  constructor
  · rw [h.1]
    decide
  · rw [h.2]
    decide

/-- C4: a successful transition into Rx from a non-Rx mode first runs the
Tx-empty wait, then asserts CE (while the recorded mode still reads Tx), then
sets CONFIG's PRIM_RX via the cached update, then records mode Rx; a
transition into Tx from a non-Tx mode de-asserts CE before clearing PRIM_RX
and then records mode Tx. -/
theorem mode_transition_order (chip : Chip) (s : St) :
    (s.mode ≠ Mode.Rx → (waitTxEmptyOp chip s).2.1 = NbRes.ok () →
      ∃ cfg, (rxOp chip s).1 =
          (waitTxEmptyOp chip s).1 ++ Ev.ceHigh Mode.Tx :: cfg ++ [Ev.modeSet Mode.Rx]
        ∧ (rxOp chip s).2.2.mode = Mode.Rx
        ∧ (rxOp chip s).2.2.ce = true
        ∧ Config.primRx (rxOp chip s).2.2.config = true)
    ∧ (s.mode ≠ Mode.Tx →
      ∃ cfg, (txOp s).1 = Ev.ceLow s.mode :: cfg ++ [Ev.modeSet Mode.Tx]
        ∧ (txOp s).2.mode = Mode.Tx
        ∧ (txOp s).2.ce = false
        ∧ Config.primRx (txOp s).2.config = false) := by
  constructor
  · intro h1 h2
    have hm : (waitTxEmptyOp chip s).2.2.mode = Mode.Tx := waitTxEmptyOp_mode chip s
    refine ⟨(updateConfigM { (waitTxEmptyOp chip s).2.2 with ce := true }
      (fun c => Config.setPrimRx c true)).1, ?_, ?_, ?_, ?_⟩
    · unfold rxOp
      rw [if_neg h1]
      dsimp only
      rw [h2, hm]
    · unfold rxOp
      rw [if_neg h1]
      dsimp only
      rw [h2]
    · unfold rxOp
      rw [if_neg h1]
      dsimp only
      rw [h2]
      show (updateConfigM _ _).2.ce = true
      rw [updateConfigM_ce]
    · unfold rxOp
      rw [if_neg h1]
      dsimp only
      rw [h2]
      show Config.primRx (updateConfigM _ _).2.config = true
      rw [updateConfigM_config, primRx_setPrimRx]
  · intro h
    refine ⟨(updateConfigM { s with ce := false } (fun c => Config.setPrimRx c false)).1,
      ?_, txOp_mode s, txOp_ce s h, txOp_primRx s h⟩
    unfold txOp
    rw [if_neg h]

/-- Witness for C4 from the freshly constructed Standby state with an idle
chip: both transition orderings hold concretely. -/
theorem mode_transition_order_witness :
    (∃ cfg, (rxOp chipBasic initSt).1 =
        (waitTxEmptyOp chipBasic initSt).1 ++ Ev.ceHigh Mode.Tx :: cfg ++ [Ev.modeSet Mode.Rx]
      ∧ (rxOp chipBasic initSt).2.2.mode = Mode.Rx
      ∧ (rxOp chipBasic initSt).2.2.ce = true
      ∧ Config.primRx (rxOp chipBasic initSt).2.2.config = true)
    ∧ (∃ cfg, (txOp initSt).1 = Ev.ceLow initSt.mode :: cfg ++ [Ev.modeSet Mode.Tx]
      ∧ (txOp initSt).2.mode = Mode.Tx
      ∧ (txOp initSt).2.ce = false
      ∧ Config.primRx (txOp initSt).2.config = false) := by
  exact ⟨(mode_transition_order chipBasic initSt).1 (by decide) (by decide),
    (mode_transition_order chipBasic initSt).2 (by decide)⟩

/-- C7 counterexample: a successful read() from the freshly constructed
Standby state issues four bus commands (the FIFO-status read and the CONFIG
write of the implicit Rx transition, then the two payload commands), refuting
the claim that every successful read() issues exactly two commands. -/
theorem read_two_commands_cex :
    (readOp chipBasic initSt).2.1 = NbRes.ok []
    ∧ ((readOp chipBasic initSt).1.filter isCmdEv).length = 4
    ∧ ((readOp chipBasic initSt).1.filter isCmdEv).length ≠ 2 := by
  decide

/-- C7 amended: a successful read() call made while the recorded mode is
already Rx issues exactly two commands, the read-payload-width command then
the read-payload command for the decoded width, and returns a payload whose
length equals that width byte; from other modes the implicit Rx transition
issues additional commands first. -/
theorem read_in_rx_two_commands (chip : Chip) (s : St) (h : s.mode = Mode.Rx) :
    (readOp chip s).1 =
      [Ev.cmd Cmd.readRxPayloadWidth, Ev.cmd (Cmd.readRxPayload ((chip s.k).width))]
    ∧ ∃ pl, (readOp chip s).2.1 = NbRes.ok pl ∧ pl.length = (chip s.k).width := by
  unfold readOp rxOp
  rw [if_pos h]
  dsimp only
  exact ⟨rfl, _, rfl, by simp⟩

/-- Witness for the amended C7: in Rx with a 5-byte packet pending, read()
issues the two commands and returns a 5-byte payload. -/
theorem read_in_rx_two_commands_witness :
    (readOp chipRx5 stRx).1 =
      [Ev.cmd Cmd.readRxPayloadWidth, Ev.cmd (Cmd.readRxPayload 5)]
    ∧ ∃ pl, (readOp chipRx5 stRx).2.1 = NbRes.ok pl ∧ pl.length = 5 := by
  have h := read_in_rx_two_commands chipRx5 stRx (by decide)
  simpa using h

/-- The CE discipline scanner distributes over trace concatenation. -/
theorem chkRun_append (a b : List Ev) (st : ChkSt) :
    chkRun st (a ++ b) =
      match chkRun st a with
      | none => none
      | some st2 => chkRun st2 b := by
  induction a generalizing st with
  | nil => rfl
  | cons e es ih =>
    simp only [List.cons_append, chkRun]
    cases chkStep st e with
    | none => rfl
    | some st2 => exact ih st2

/-- Consuming an accepted prefix of a trace. -/
theorem chkRun_some_append (a b : List Ev) (st st2 : ChkSt)
    (h : chkRun st a = some st2) : chkRun st (a ++ b) = chkRun st2 b := by
  rw [chkRun_append, h]

/-- A cached-CONFIG update emits no CE toggle or mode assignment, so the
scanner keeps its owed assignment across it. -/
theorem chk_updateConfigM (s : St) (f : Nat → Nat) (p : Option Mode) (b : Bool) :
    ∃ b2, chkRun ⟨p, b⟩ (updateConfigM s f).1 = some ⟨p, b2⟩ := by
  unfold updateConfigM
  dsimp only
  split
  · exact ⟨b, rfl⟩
  · exact ⟨false, rfl⟩

/-- The Tx transition's trace is accepted by the scanner from a clean state. -/
theorem chk_txOp (s : St) (b : Bool) :
    ∃ b2, chkRun ⟨none, b⟩ (txOp s).1 = some ⟨none, b2⟩ := by
  obtain ⟨m, cfg, ce0, k0⟩ := s
  cases m with
  | Tx => exact ⟨b, rfl⟩
  | Standby =>
    obtain ⟨b1, h1⟩ := chk_updateConfigM ⟨Mode.Standby, cfg, false, k0⟩
      (fun c => Config.setPrimRx c false) none false
    refine ⟨false, ?_⟩
    show chkRun ⟨none, false⟩
      ((updateConfigM ⟨Mode.Standby, cfg, false, k0⟩ (fun c => Config.setPrimRx c false)).1
        ++ [Ev.modeSet Mode.Tx]) = some ⟨none, false⟩
    rw [chkRun_some_append _ _ _ _ h1]
    rfl
  | Rx =>
    obtain ⟨b1, h1⟩ := chk_updateConfigM ⟨Mode.Rx, cfg, false, k0⟩
      (fun c => Config.setPrimRx c false) (some Mode.Tx) false
    refine ⟨false, ?_⟩
    show chkRun ⟨some Mode.Tx, false⟩
      ((updateConfigM ⟨Mode.Rx, cfg, false, k0⟩ (fun c => Config.setPrimRx c false)).1
        ++ [Ev.modeSet Mode.Tx]) = some ⟨none, false⟩
    rw [chkRun_some_append _ _ _ _ h1]
    rfl

/-- wait_tx_ready leaves the recorded mode at Tx. -/
theorem waitTxReadyOp_mode (chip : Chip) (s : St) :
    (waitTxReadyOp chip s).2.2.mode = Mode.Tx := by
  unfold waitTxReadyOp
  have h := txOp_mode s
  dsimp only
  split <;> simpa using h

/-- wait_tx_ready's trace is accepted by the scanner from a clean state. -/
theorem chk_waitTxReadyOp (chip : Chip) (s : St) (b : Bool) :
    ∃ b2, chkRun ⟨none, b⟩ (waitTxReadyOp chip s).1 = some ⟨none, b2⟩ := by
  unfold waitTxReadyOp
  dsimp only
  obtain ⟨b1, h1⟩ := chk_txOp s b
  by_cases hmax : (chip (txOp s).2.k).status.max_rt
  · refine ⟨false, ?_⟩
    simp only [hmax, if_true]
    rw [chkRun_append, h1]
    rfl
  · refine ⟨false, ?_⟩
    simp only [hmax, if_false, Bool.false_eq_true]
    rw [chkRun_append, h1]
    rfl

/-- wait_tx_empty's trace is accepted by the scanner from a clean state. -/
theorem chk_waitTxEmptyOp (chip : Chip) (s : St) (b : Bool) :
    ∃ b2, chkRun ⟨none, b⟩ (waitTxEmptyOp chip s).1 = some ⟨none, b2⟩ := by
  unfold waitTxEmptyOp
  dsimp only
  obtain ⟨b1, h1⟩ := chk_txOp s b
  have hmode := txOp_mode s
  by_cases hempty : (chip (txOp s).2.k).fifo.tx_empty
  · by_cases hmax : (chip (txOp s).2.k).status.max_rt
    · refine ⟨false, ?_⟩
      simp only [hmax, if_true, hempty]
      have hA : chkRun ⟨none, b⟩ ((txOp s).1 ++
          [Ev.cmd (Cmd.readReg 23), Ev.cmd Cmd.flushTx, Ev.cmd (clearCmd false true true)]) =
          some ⟨none, false⟩ := by
        rw [chkRun_some_append _ _ _ _ h1]
        rfl
      rw [chkRun_some_append _ _ _ _ hA, hmode]
      rfl
    · refine ⟨false, ?_⟩
      simp only [hmax, if_false, Bool.false_eq_true, hempty, if_true]
      have hA : chkRun ⟨none, b⟩ ((txOp s).1 ++ [Ev.cmd (Cmd.readReg 23)]) =
          some ⟨none, false⟩ := by
        rw [chkRun_some_append _ _ _ _ h1]
        rfl
      rw [chkRun_some_append _ _ _ _ hA, hmode]
      rfl
  · by_cases hmax : (chip (txOp s).2.k).status.max_rt
    · refine ⟨false, ?_⟩
      simp only [hmax, if_true, hempty, Bool.false_eq_true, if_false]
      rw [chkRun_append, h1]
      rfl
    · refine ⟨false, ?_⟩
      simp only [hmax, hempty, Bool.false_eq_true, if_false]
      rw [chkRun_append, h1]
      rfl

/-- The Rx transition's trace is accepted by the scanner from a clean state. -/
theorem chk_rxOp (chip : Chip) (s : St) (b : Bool) :
    ∃ b2, chkRun ⟨none, b⟩ (rxOp chip s).1 = some ⟨none, b2⟩ := by
  unfold rxOp
  by_cases h : s.mode = Mode.Rx
  · rw [if_pos h]
    exact ⟨b, rfl⟩
  · rw [if_neg h]
    dsimp only
    obtain ⟨b1, h1⟩ := chk_waitTxEmptyOp chip s b
    have hmode := waitTxEmptyOp_mode chip s
    cases hw : (waitTxEmptyOp chip s).2.1 with
    | wouldBlock =>
      simp only [hw]
      exact ⟨b1, h1⟩
    | ok u =>
      simp only [hw]
      rw [List.append_assoc, chkRun_some_append _ _ _ _ h1, hmode]
      cases b1 with
      | false =>
        obtain ⟨b2, h2⟩ := chk_updateConfigM
          ⟨Mode.Tx, (waitTxEmptyOp chip s).2.2.config, true, (waitTxEmptyOp chip s).2.2.k⟩
          (fun c => Config.setPrimRx c true) (some Mode.Rx) false
        refine ⟨false, ?_⟩
        show chkRun ⟨some Mode.Rx, false⟩
          ((updateConfigM ⟨Mode.Tx, (waitTxEmptyOp chip s).2.2.config, true,
            (waitTxEmptyOp chip s).2.2.k⟩ (fun c => Config.setPrimRx c true)).1
            ++ [Ev.modeSet Mode.Rx]) = some ⟨none, false⟩
        rw [chkRun_some_append _ _ _ _ h2]
        rfl
      | true =>
        obtain ⟨b2, h2⟩ := chk_updateConfigM
          ⟨Mode.Tx, (waitTxEmptyOp chip s).2.2.config, true, (waitTxEmptyOp chip s).2.2.k⟩
          (fun c => Config.setPrimRx c true) none false
        refine ⟨false, ?_⟩
        show chkRun ⟨none, false⟩
          ((updateConfigM ⟨Mode.Tx, (waitTxEmptyOp chip s).2.2.config, true,
            (waitTxEmptyOp chip s).2.2.k⟩ (fun c => Config.setPrimRx c true)).1
            ++ [Ev.modeSet Mode.Rx]) = some ⟨none, false⟩
        rw [chkRun_some_append _ _ _ _ h2]
        rfl

/-- send's trace is accepted by the scanner from a clean state: its CE pulse
in Tx is licensed by the immediately preceding write-TX-payload command. -/
theorem chk_sendOp (chip : Chip) (pl : List Nat) (s : St) (b : Bool) :
    ∃ b2, chkRun ⟨none, b⟩ (sendOp chip pl s).1 = some ⟨none, b2⟩ := by
  unfold sendOp
  dsimp only
  obtain ⟨b1, h1⟩ := chk_txOp s b
  obtain ⟨b2, h2⟩ := chk_waitTxReadyOp chip (txOp s).2 b1
  have hmode := waitTxReadyOp_mode chip (txOp s).2
  cases hw : (waitTxReadyOp chip (txOp s).2).2.1 with
  | wouldBlock =>
    simp only [hw]
    refine ⟨b2, ?_⟩
    rw [chkRun_append, h1]
    exact h2
  | ok u =>
    simp only [hw]
    refine ⟨false, ?_⟩
    rw [List.append_assoc, chkRun_append, h1]
    show chkRun ⟨none, b1⟩ (_ ++ [Ev.cmd (Cmd.writeTxPayload pl), Ev.ceHigh _]) = _
    rw [chkRun_append, h2, hmode]
    rfl

/-- read's trace is accepted by the scanner from a clean state. -/
theorem chk_readOp (chip : Chip) (s : St) (b : Bool) :
    ∃ b2, chkRun ⟨none, b⟩ (readOp chip s).1 = some ⟨none, b2⟩ := by
  unfold readOp
  dsimp only
  obtain ⟨b1, h1⟩ := chk_rxOp chip s b
  cases hw : (rxOp chip s).2.1 with
  | wouldBlock =>
    simp only [hw]
    exact ⟨b1, h1⟩
  | ok u =>
    simp only [hw]
    refine ⟨false, ?_⟩
    rw [chkRun_append, h1]
    rfl

/-- wait_rx_ready's trace is accepted by the scanner from a clean state. -/
theorem chk_waitRxReadyOp (chip : Chip) (s : St) (b : Bool) :
    ∃ b2, chkRun ⟨none, b⟩ (waitRxReadyOp chip s).1 = some ⟨none, b2⟩ := by
  unfold waitRxReadyOp
  dsimp only
  obtain ⟨b1, h1⟩ := chk_rxOp chip s b
  cases hw : (rxOp chip s).2.1 with
  | wouldBlock =>
    simp only [hw]
    exact ⟨b1, h1⟩
  | ok u =>
    simp only [hw]
    refine ⟨false, ?_⟩
    rw [chkRun_append, h1]
    rfl

/-- Every top-level operation's trace is accepted by the scanner from a clean
state. -/
theorem chk_runOp (chip : Chip) (s : St) (o : Op) (b : Bool) :
    ∃ b2, chkRun ⟨none, b⟩ (runOp chip s o).1 = some ⟨none, b2⟩ := by
  cases o with
  | enterTx => exact chk_txOp s b
  | enterRx => exact chk_rxOp chip s b
  | send pl => exact chk_sendOp chip pl s b
  | readPayload => exact chk_readOp chip s b
  | waitTxReady => exact chk_waitTxReadyOp chip s b
  | waitTxEmpty => exact chk_waitTxEmptyOp chip s b
  | waitRxReady => exact chk_waitRxReadyOp chip s b

/-- The trace of any operation sequence is accepted by the scanner. -/
theorem chk_runOps (chip : Chip) (ops : List Op) : ∀ (s : St) (b : Bool),
    ∃ b2, chkRun ⟨none, b⟩ (runOps chip s ops).1 = some ⟨none, b2⟩ := by
  induction ops with
  | nil => exact fun s b => ⟨b, rfl⟩
  | cons o os ih =>
    intro s b
    obtain ⟨b1, h1⟩ := chk_runOp chip s o b
    obtain ⟨b2, h2⟩ := ih (runOp chip s o).2 b1
    refine ⟨b2, ?_⟩
    simp only [runOps]
    rw [chkRun_append, h1]
    exact h2

/-- C5 counterexample: running the spec's own sequence enter_tx, enter_rx,
enter_tx from the constructed state asserts CE while the recorded mode is Tx
(inside the Rx transition) and de-asserts CE while the recorded mode is Rx
(at the start of the final Tx transition), refuting the claim as stated. -/
theorem ce_mode_invariant_cex :
    Ev.ceHigh Mode.Tx ∈ (runOps chipBasic initSt [Op.enterTx, Op.enterRx, Op.enterTx]).1
    ∧ Ev.ceLow Mode.Rx ∈ (runOps chipBasic initSt [Op.enterTx, Op.enterRx, Op.enterTx]).1 := by
  decide

/-- C5 amended: across all call sequences of enter_tx, enter_rx, send, read
and the wait operations, every CE de-assert made while the recorded mode is
Rx is the opening of a transition that records mode Tx before any further CE
toggle or mode assignment, and every CE assert made while the recorded mode
is Tx is either send's transmission pulse (immediately preceded by the
write-TX-payload command) or part of a transition that records mode Rx before
any further CE toggle or mode assignment, with no such obligation left open
at the end of the trace. -/
theorem ce_discipline_all_sequences (chip : Chip) (ops : List Op) :
    ceOk (runOps chip initSt ops).1 = true := by
  obtain ⟨b2, h⟩ := chk_runOps chip ops initSt false
  unfold ceOk
  rw [h]
  rfl

end Nrf24
